import Mathlib

/-
Shallow embedding of the tekr-io/haystack indexing endpoint
(src/rest_api/rest_api/controller/index.py, configuration defaults from
src/rest_api/rest_api/config.py) together with a model of the parts of the
external haystack library that the endpoint's observable behaviour depends on.
Pure Python values are translated to Lean values; the mutable `meta_form`
dictionary and the on-disk upload directory are modelled by explicit state.
-/

namespace Tekr

/-- JSON values, the decoding target of the serialized `meta` form field
(`json.loads(meta)` at line 57 of index.py). Objects keep key insertion
order, as Python dicts do. -/
inductive Json where
  | null : Json
  | bool (b : Bool) : Json
  | num (n : Int) : Json
  | str (s : String) : Json
  | arr (elems : List Json) : Json
  | obj (fields : List (String × Json)) : Json

/-- Python truthiness of a decoded JSON value, as used by the expression
`json.loads(meta) or {}`: None, False, 0, empty string, empty list and empty
dict are falsy; everything else is truthy. -/
def pyTruthy : Json → Bool
  | Json.null => false
  | Json.bool b => b
  | Json.num n => n != 0
  | Json.str s => s ≠ ""
  | Json.arr elems => !elems.isEmpty
  | Json.obj fields => !fields.isEmpty

/-- Value of `json.loads(meta) or {}` (line 57): a falsy decode result is
replaced by the empty dict, a truthy one is kept. -/
def metaOrEmpty (j : Json) : Json :=
  if pyTruthy j then j else Json.obj []

/-- Python `isinstance(meta_form, dict)` (line 58). -/
def isDict : Json → Bool
  | Json.obj _ => true
  | _ => false

/-- Name of the Python runtime type of a decoded JSON value, used in the
interpolated detail string of the HTTPException at line 59 (Python renders
it in class-qualified form; only the type name is modelled). -/
def pyTypeName : Json → String
  | Json.null => "NoneType"
  | Json.bool _ => "bool"
  | Json.num _ => "int"
  | Json.str _ => "str"
  | Json.arr _ => "list"
  | Json.obj _ => "dict"

/-- Key-value pairs of a JSON object (a Python dict's items, in insertion
order). -/
abbrev Dict := List (String × Json)

/-- Fields of a JSON object; non-objects have none. -/
def objFields : Json → Dict
  | Json.obj fields => fields
  | _ => []

/-- Python dict item assignment `d[k] = v`: replace the value of an existing
key in place, otherwise append the new key at the end (insertion order). -/
def dictSet : Dict → String → Json → Dict
  | [], k, v => [(k, v)]
  | (k2, v2) :: rest, k, v =>
      if k2 = k then (k, v) :: rest else (k2, v2) :: dictSet rest k v

/-- Python dict subscript lookup `d[k]`, `none` when the key is absent
(a KeyError in Python). -/
def dictGet? : Dict → String → Option Json
  | [], _ => none
  | (k2, v) :: rest, k => if k2 = k then some v else dictGet? rest k

/-- Classification outcome of the FileTypeClassifier for one uploaded file:
one of the three converter-backed types or an unmatched type. The
classification algorithm itself is owned by the external haystack library and
is opaque here, so each file carries its classification outcome. -/
inductive FileType where
  | text : FileType
  | pdf : FileType
  | markdown : FileType
  | unknown : FileType
deriving DecidableEq

/-- One uploaded file part: original filename, content, and its
classification outcome. -/
structure UploadFile where
  filename : String
  content : String
  ftype : FileType

/-- Form model FileConverterParams (lines 25-28 of index.py): every field
optional, absent fields are `none`. -/
structure FileConverterParams where
  remove_numeric_tables : Option Bool
  valid_languages : Option (List String)

/-- Form model PreprocessorParams (lines 31-39 of index.py): every field
optional, absent fields are `none`. -/
structure PreprocessorParams where
  clean_whitespace : Option Bool
  clean_empty_lines : Option Bool
  clean_header_footer : Option Bool
  split_by : Option String
  split_length : Option Int
  split_overlap : Option Int
  split_respect_sentence_boundary : Option Bool

/-- One request to the POST /index endpoint: the uploaded file parts, the
decoded `meta` form field (the result of `json.loads` on the serialized
string; the field's default "null" decodes to `Json.null`), and the two
optional parameter form models. -/
structure Request where
  files : List UploadFile
  meta : Json
  fileconverter_params : FileConverterParams
  preprocessor_params : PreprocessorParams

/-- Keyword arguments of the ElasticsearchDocumentStore constructed at lines
73-85 of index.py. -/
structure StoreConfig where
  similarity : String
  embedding_dim : Nat
  host : String
  port : Nat
  username : String
  scheme : String
  ca_certs : String
  verify_certs : Bool
  duplicate_documents : String
  index : Json

/-- Arguments of the PreProcessor constructed at lines 98-106 of index.py. -/
structure PreProcessorConfig where
  clean_empty_lines : Bool
  clean_whitespace : Bool
  clean_header_footer : Bool
  split_by : String
  split_length : Nat
  split_respect_sentence_boundary : Bool
  split_overlap : Nat

/-- One node of the pipeline graph as registered by `Pipeline.add_node`:
its name and its declared inputs, where an input is either the external
entry point "File", another node's name, or a numbered output channel
written as the upstream name, a dot, and the channel. -/
structure PNode where
  name : String
  inputs : List String

/-- Default host from config.py (ELASTIC_HOST environment default). -/
def ELASTIC_HOST : String := "tekr.es.europe-west3.gcp.cloud.es.io"

/-- Default upload directory name from config.py (FILE_UPLOAD_PATH). -/
def FILE_UPLOAD_PATH : String := "file-upload"

/-- The store configuration built at lines 73-85 for a given collection
identifier (the `index` keyword argument, taken from the first file's
metadata). The password argument is omitted as a credential. -/
def mkStore (idx : Json) : StoreConfig :=
  { similarity := "dot_product"
    embedding_dim := 768
    host := ELASTIC_HOST
    port := 9243
    username := "elastic"
    scheme := "https"
    ca_certs := "/etc/ssl/certs/ca-certificates.crt"
    verify_certs := true
    duplicate_documents := "overwrite"
    index := idx }

/-- The PreProcessor arguments hard-coded at lines 98-106 of index.py. -/
def pipelinePreProcessor : PreProcessorConfig :=
  { clean_empty_lines := true
    clean_whitespace := true
    clean_header_footer := true
    split_by := "sentence"
    split_length := 50
    split_respect_sentence_boundary := false
    split_overlap := 0 }

/-- Arguments the converters are constructed with at lines 94-96:
`TextConverter()`, `PDFToTextConverter()` and `MarkdownConverter()` receive
no keyword arguments, so both override fields are absent (library
defaults). -/
def pipelineConverterArgs : FileConverterParams :=
  { remove_numeric_tables := none
    valid_languages := none }

/-- The pipeline graph registered by the seven `add_node` calls at lines
110-117 of index.py, in call order. -/
def indexingPipeline : List PNode :=
  [ { name := "FileTypeClassifier", inputs := ["File"] }
  , { name := "TextConverter", inputs := ["FileTypeClassifier.output_1"] }
  , { name := "PDFToTextConverter", inputs := ["FileTypeClassifier.output_2"] }
  , { name := "MarkdownConverter", inputs := ["FileTypeClassifier.output_3"] }
  , { name := "PreProcessor",
      inputs := ["TextConverter", "PDFToTextConverter", "MarkdownConverter"] }
  , { name := "EmbeddingRetriever", inputs := ["PreProcessor"] }
  , { name := "DocumentStore", inputs := ["EmbeddingRetriever"] } ]

/-- Modelled from the spec: the FileTypeClassifier (external haystack
library) routes each file to the numbered output channel that its converter
is bound to in the observed configuration: text to output_1, PDF to output_2,
Markdown to output_3; an unmatched type gets no output channel at all
("Unknown is a terminal state with no bound converter"). -/
def classifierChannel : FileType → Option String
  | FileType.text => some "output_1"
  | FileType.pdf => some "output_2"
  | FileType.markdown => some "output_3"
  | FileType.unknown => none

/-- Name of the graph node bound to a given numbered output channel of the
FileTypeClassifier, if any: the first registered node that declares the
channel among its inputs. -/
def boundConverter (g : List PNode) (ch : String) : Option String :=
  (g.find? (fun n => n.inputs.contains ("FileTypeClassifier." ++ ch))).map
    (fun n => n.name)

/-- Converter a file of the given type is routed to in graph g: the node
bound to the classifier channel the file is emitted on, if both exist. -/
def routedConverter (g : List PNode) (t : FileType) : Option String :=
  (classifierChannel t).bind (fun ch => boundConverter g ch)

/-- Modelled from the spec: each converter transforms its file into
normalized plain text; the conversion algorithms are owned by the external
library and treated as opaque, so conversion yields the file's text
content. -/
def convertFile (_conv : String) (f : UploadFile) : String :=
  f.content

/-- Groups a list into consecutive chunks of n elements (the last chunk may
be shorter); fuel-driven so that it reduces definitionally. -/
def chunkListAux : Nat → Nat → List String → List (List String)
  | 0, _, _ => []
  | _, _, [] => []
  | fuel + 1, n, x :: xs => (x :: xs.take (n - 1)) :: chunkListAux fuel n (xs.drop (n - 1))

/-- Groups a list into consecutive chunks of n elements, preserving order. -/
def chunkList (n : Nat) (l : List String) : List (List String) :=
  chunkListAux l.length n l

/-- Splits a character list at every dot, keeping empty segments, like
splitting a string on the separator ".". -/
def splitCharsAux : List Char → List Char → List (List Char)
  | [], acc => [acc.reverse]
  | c :: cs, acc =>
      if c = '.' then acc.reverse :: splitCharsAux cs []
      else splitCharsAux cs (c :: acc)

/-- Sentence segments of a text: the text split at every dot. -/
def splitDots (s : String) : List String :=
  (splitCharsAux s.data []).map (fun cs => String.mk cs)

/-- Joins segments back with dots between them. -/
def joinDots : List String → String
  | [] => ""
  | [p] => p
  | p :: p2 :: ps => p ++ "." ++ joinDots (p2 :: ps)

/-- Modelled from the spec: the PreProcessor (external haystack library)
splits converted text at sentence boundaries and groups split_length
sentences per passage, preserving document order; the cleanup passes do not
affect any claim here and are not modelled. Modelled for the only splitting
policy the endpoint configures (split_by sentence). -/
def passagesOf (cfg : PreProcessorConfig) (text : String) : List String :=
  (chunkList cfg.split_length (splitDots text)).map joinDots

/-- Modelled from the spec: the embedding model
sentence-transformers/multi-qa-mpnet-base-dot-v1 configured at lines 87-91
maps each passage to a fixed 768-dimension dense vector. -/
def mpnetEmbeddingDim : Nat := 768

/-- One document as persisted by the store writer: passage text, inherited
metadata, dimension of the attached dense vector, and the derived content
identity that duplicate handling keys on. -/
structure Doc where
  content : String
  meta : Dict
  embedding_dim : Nat
  id : String

/-- Modelled from the spec: writing one document into the
ElasticsearchDocumentStore (external haystack library). Under the overwrite
duplicate policy a document whose content identity matches an existing one
replaces it in place; otherwise the document is appended. -/
def writeDoc (policy : String) (store : List Doc) (d : Doc) : List Doc :=
  if policy = "overwrite" then
    if store.any (fun e => e.id == d.id) then
      store.map (fun e => if e.id == d.id then d else e)
    else store ++ [d]
  else store ++ [d]

/-- Documents produced from one file and its metadata entry: one per
passage, embedded at the model's dimension, identified by passage content. -/
def fileDocs (cfg : PreProcessorConfig) (conv : String) (f : UploadFile)
    (m : Dict) : List Doc :=
  (passagesOf cfg (convertFile conv f)).map
    (fun p => { content := p, meta := m, embedding_dim := mpnetEmbeddingDim, id := p })

/-- Modelled from the spec: one step of `Pipeline.run` (external haystack
library), processing a single file of the batch. A file whose
classification has a bound converter is converted, split into passages,
embedded, and each passage written into the store under the duplicate
policy; a file without a bound converter is dropped silently. -/
def indexStep (g : List PNode) (policy : String) (cfg : PreProcessorConfig)
    (st : List Doc) (fm : UploadFile × Dict) : List Doc :=
  match routedConverter g fm.1.ftype with
  | none => st
  | some conv => (fileDocs cfg conv fm.1 fm.2).foldl (writeDoc policy) st

/-- Documents the store holds after running the whole batch, file by file in
list order, starting from an empty collection. -/
def runIndexing (g : List PNode) (policy : String) (cfg : PreProcessorConfig)
    (files : List (UploadFile × Dict)) : List Doc :=
  files.foldl (indexStep g policy cfg) []

/-- Files of a batch that reach the PreProcessor node: exactly those routed
to some bound converter, the merge point of the three converter branches. -/
def preprocessorInputs (g : List PNode) (files : List (UploadFile × Dict)) :
    List (UploadFile × Dict) :=
  files.filter (fun fm => (routedConverter g fm.1.ftype).isSome)

/-- Errors the endpoint can signal: the explicit HTTPException of line 59,
the KeyError of the `file_metas[0]['index']` subscript at line 84 when the
key is absent, and the IndexError of the same expression when the batch is
empty. -/
inductive PyErr where
  | httpException (status : Nat) (detail : String)
  | keyError (k : String)
  | indexError : PyErr
deriving DecidableEq

/-- Data available when upload_file runs to completion: the values built at
lines 54-117 plus the documents the store holds after `p.run`. -/
structure RunResult where
  file_paths : List String
  file_metas : List Dict
  store : StoreConfig
  preprocessor : PreProcessorConfig
  converters : FileConverterParams
  pipeline : List PNode
  storedDocs : List Doc

/-- Observable outcome of one call to upload_file: the returned value or
raised error, the temporary files the call persisted into the upload
directory, and the upload directory's contents after the call (its contents
before the call plus whatever was written; nothing is ever removed, matching
the absence of any cleanup in index.py). -/
structure UploadOutcome where
  result : Except PyErr RunResult
  written : List String
  fs : List String

/-- Path of the temporary file saved for the i-th uploaded file at line 63:
the upload directory, a slash, the request-scoped random hex identifier and
an underscore prefixed to the original filename. -/
def savedPath (u : Nat → String) (i : Nat) (f : UploadFile) : String :=
  FILE_UPLOAD_PATH ++ "/" ++ u i ++ "_" ++ f.filename

/-- Paths written by the file-saving loop of lines 61-71, in order,
starting at index i. -/
def loopPaths (u : Nat → String) : Nat → List UploadFile → List String
  | _, [] => []
  | i, f :: fs => savedPath u i f :: loopPaths u (i + 1) fs

/-- Final state of the single `meta_form` dictionary after the saving loop:
each iteration executes the item assignment of line 68 on the same object,
so the name key ends up holding the last file's filename. -/
def loopMeta (files : List UploadFile) (m : Dict) : Dict :=
  files.foldl (fun acc f => dictSet acc "name" (Json.str f.filename)) m

/-- The `file_metas` list as observed after the loop: line 69 appends a
reference to the one `meta_form` object on every iteration, so every
position aliases the same dictionary and dereferencing after the loop yields
the loop's final dictionary at every position. -/
def metasOf (files : List UploadFile) (m : Dict) : List Dict :=
  List.replicate files.length (loopMeta files m)

/-- Interpolated detail string of the HTTPException raised at line 59. -/
def metaTypeError (metaForm : Json) : String :=
  "The meta field must be a dict or None, not " ++ pyTypeName metaForm

/-- The POST /index handler upload_file (lines 46-119 of index.py) over one
request: decode-and-default the meta field, reject non-dict metadata with
HTTP 500 before the saving loop, persist every file and build the aliased
metadata list, construct the document store from the first metadata entry's
index key (KeyError when absent, IndexError when the batch is empty), build
the fixed seven-node pipeline with the hard-coded preprocessor and
default-constructed converters, and run every saved file through it. The
uuid4 hex supply u and the prior upload-directory contents fs0 are explicit
parameters. -/
def upload_file (req : Request) (u : Nat → String) (fs0 : List String) :
    UploadOutcome :=
  if isDict (metaOrEmpty req.meta) then
    match metasOf req.files (objFields (metaOrEmpty req.meta)) with
    | [] =>
        { result := Except.error PyErr.indexError
          written := loopPaths u 0 req.files
          fs := fs0 ++ loopPaths u 0 req.files }
    | m0 :: ms =>
      match dictGet? m0 "index" with
      | none =>
          { result := Except.error (PyErr.keyError "index")
            written := loopPaths u 0 req.files
            fs := fs0 ++ loopPaths u 0 req.files }
      | some idx =>
          { result := Except.ok
              { file_paths := loopPaths u 0 req.files
                file_metas := m0 :: ms
                store := mkStore idx
                preprocessor := pipelinePreProcessor
                converters := pipelineConverterArgs
                pipeline := indexingPipeline
                storedDocs := runIndexing indexingPipeline
                  (mkStore idx).duplicate_documents pipelinePreProcessor
                  (req.files.zip (m0 :: ms)) }
            written := loopPaths u 0 req.files
            fs := fs0 ++ loopPaths u 0 req.files }
  else
    { result := Except.error
        (PyErr.httpException 500 (metaTypeError (metaOrEmpty req.meta)))
      written := []
      fs := fs0 }

/-- Returned RunResult of an outcome, when the call succeeded. -/
def okRun (o : UploadOutcome) : Option RunResult :=
  o.result.toOption

/-- Store configuration of a successful call. -/
def okStore (o : UploadOutcome) : Option StoreConfig :=
  (okRun o).map (fun r => r.store)

/-- Metadata entries of a successful call (empty on failure). -/
def okFileMetas (o : UploadOutcome) : List Dict :=
  ((okRun o).map (fun r => r.file_metas)).getD []

/-- Pipeline graph of a successful call. -/
def okPipeline (o : UploadOutcome) : Option (List PNode) :=
  (okRun o).map (fun r => r.pipeline)

/-- Preprocessor configuration of a successful call. -/
def okPreprocessor (o : UploadOutcome) : Option PreProcessorConfig :=
  (okRun o).map (fun r => r.preprocessor)

/-- Converter construction arguments of a successful call. -/
def okConverters (o : UploadOutcome) : Option FileConverterParams :=
  (okRun o).map (fun r => r.converters)

/-- Documents held by the store after a successful call (empty on
failure). -/
def okDocs (o : UploadOutcome) : List Doc :=
  ((okRun o).map (fun r => r.storedDocs)).getD []

/-- Filename of the last file of a batch (empty for an empty batch). -/
def lastFilename : List UploadFile → String
  | [] => ""
  | [f] => f.filename
  | _ :: f :: fs => lastFilename (f :: fs)

theorem dictGet_dictSet_self (m : Dict) (k : String) (v : Json) :
    dictGet? (dictSet m k v) k = some v := by
  induction m with
  | nil => simp [dictSet, dictGet?]
  | cons p rest ih =>
      obtain ⟨k2, v2⟩ := p
      by_cases h : k2 = k
      · simp [dictSet, dictGet?, h]
      · simp [dictSet, dictGet?, h, ih]

theorem dictGet_dictSet_ne (m : Dict) (k k2 : String) (v : Json)
    (h : k2 ≠ k) : dictGet? (dictSet m k v) k2 = dictGet? m k2 := by
  induction m with
  | nil => simp [dictSet, dictGet?, Ne.symm h]
  | cons p rest ih =>
      obtain ⟨k3, v3⟩ := p
      by_cases h3 : k3 = k
      · subst h3
        simp [dictSet, dictGet?, Ne.symm h]
      · by_cases h4 : k3 = k2 <;> simp [dictSet, dictGet?, h3, h4, h, ih]

theorem dictSet_dictSet_self (m : Dict) (k : String) (v w : Json) :
    dictSet (dictSet m k v) k w = dictSet m k w := by
  induction m with
  | nil => simp [dictSet]
  | cons p rest ih =>
      obtain ⟨k2, v2⟩ := p
      by_cases h : k2 = k
      · simp [dictSet, h]
      · simp [dictSet, h, ih]

theorem loopMeta_cons (f : UploadFile) (fs : List UploadFile) (m : Dict) :
    loopMeta (f :: fs) m = loopMeta fs (dictSet m "name" (Json.str f.filename)) :=
  rfl

theorem loopMeta_eq_dictSet (fs : List UploadFile) (f : UploadFile) (m : Dict) :
    loopMeta (f :: fs) m = dictSet m "name" (Json.str (lastFilename (f :: fs))) := by
  induction fs generalizing f m with
  | nil => simp [loopMeta, lastFilename]
  | cons g gs ih =>
      rw [loopMeta_cons, ih g, dictSet_dictSet_self]
      rfl

theorem dictGet_loopMeta_ne (files : List UploadFile) (m : Dict) (k : String)
    (h : k ≠ "name") : dictGet? (loopMeta files m) k = dictGet? m k := by
  induction files generalizing m with
  | nil => rfl
  | cons f fs ih => rw [loopMeta_cons, ih, dictGet_dictSet_ne _ _ _ _ h]

/-- Characterization of a successful call: the metadata was a dict, the
batch was nonempty, the index key was present in the first (hence, by
aliasing, every) metadata entry, and the result fields are exactly the
values built at lines 61-119. -/
theorem okRun_some {req : Request} {u : Nat → String} {fs0 : List String}
    {r : RunResult} (h : okRun (upload_file req u fs0) = some r) :
    isDict (metaOrEmpty req.meta) = true ∧
    ∃ m0 ms idx,
      metasOf req.files (objFields (metaOrEmpty req.meta)) = m0 :: ms ∧
      dictGet? m0 "index" = some idx ∧
      r = { file_paths := loopPaths u 0 req.files
            file_metas := m0 :: ms
            store := mkStore idx
            preprocessor := pipelinePreProcessor
            converters := pipelineConverterArgs
            pipeline := indexingPipeline
            storedDocs := runIndexing indexingPipeline
              (mkStore idx).duplicate_documents pipelinePreProcessor
              (req.files.zip (m0 :: ms)) } := by
  unfold upload_file at h
  split at h
  case isTrue hd =>
    split at h
    case h_1 hm => simp [okRun, Except.toOption] at h
    case h_2 m0 ms hm =>
      split at h
      case h_1 hg => simp [okRun, Except.toOption] at h
      case h_2 idx hg =>
        simp only [okRun, Except.toOption, Option.some.injEq] at h
        exact ⟨hd, m0, ms, idx, hm, hg, h.symm⟩
  case isFalse hd => simp [okRun, Except.toOption] at h

/-- Names of the graph nodes that declare the given input verbatim among
their inputs (for the entry point "File": the nodes fed directly by the
external file source). -/
def nodesFedBy (g : List PNode) (src : String) : List String :=
  (g.filter (fun n => n.inputs.contains src)).map (fun n => n.name)

/-- Declared inputs of the named node, when it is registered. -/
def nodeInputs (g : List PNode) (name : String) : Option (List String) :=
  (g.find? (fun n => n.name == name)).map (fun n => n.inputs)

/-- Node an input specification refers to: the part before the first dot
(inputs may name a specific output channel after a dot). -/
def inputBase (s : String) : String :=
  String.mk (s.data.takeWhile (fun c => c ≠ '.'))

/-- Whether some node of the graph consumes an output of the named node. -/
def referenced (g : List PNode) (name : String) : Bool :=
  g.any (fun n => n.inputs.any (fun i => inputBase i == name))

/-- Terminal nodes of the graph: registered nodes no other node consumes. -/
def terminalNodes (g : List PNode) : List String :=
  (g.filter (fun n => !(referenced g n.name))).map (fun n => n.name)

/-- Checks that nodes are registered in a topological order with unique
names and that every declared input resolves to the external entry point
"File" or to a previously registered node, which is what `Pipeline.add_node`
enforces call by call; a graph built this way is acyclic. -/
def wellOrdered : List String → List PNode → Bool
  | _, [] => true
  | seen, n :: rest =>
      !(seen.contains n.name)
      && n.inputs.all (fun i => inputBase i == "File" || seen.contains (inputBase i))
      && wellOrdered (n.name :: seen) rest

/-- Acyclicity and input resolution of a graph, by construction order. -/
def acyclicDag (g : List PNode) : Bool :=
  wellOrdered [] g

/-- Documents of a store that carry the given content identity. -/
def docsWithId (s : List Doc) (i : String) : List Doc :=
  s.filter (fun e => e.id == i)

theorem docsWithId_append (s t : List Doc) (i : String) :
    docsWithId (s ++ t) i = docsWithId s i ++ docsWithId t i := by
  simp [docsWithId, List.filter_append]

theorem docsWithId_map_replace (s : List Doc) (d : Doc) :
    docsWithId (s.map (fun e => if e.id == d.id then d else e)) d.id =
      List.replicate (docsWithId s d.id).length d := by
  unfold docsWithId
  induction s with
  | nil => rfl
  | cons e rest ih =>
      by_cases h : (e.id == d.id) = true
      · rw [List.map_cons, if_pos h, List.filter_cons, if_pos (by simp),
          List.filter_cons, if_pos h, List.length_cons, List.replicate_succ, ih]
      · rw [List.map_cons, if_neg h, List.filter_cons, if_neg h,
          List.filter_cons, if_neg h, ih]

theorem docsWithId_nil_of_not_any (s : List Doc) (i : String)
    (h : s.any (fun e => e.id == i) = false) : docsWithId s i = [] := by
  unfold docsWithId
  induction s with
  | nil => rfl
  | cons e rest ih =>
      rw [List.any_cons, Bool.or_eq_false_iff] at h
      rw [List.filter_cons, if_neg (by simp [h.1])]
      exact ih h.2

/-- Overwrite upsert: after writing d, the store holds exactly the one
document d under d's content identity (provided the store was not already
holding duplicates of that identity). -/
theorem writeDoc_overwrite (s : List Doc) (d : Doc)
    (h : (docsWithId s d.id).length ≤ 1) :
    docsWithId (writeDoc "overwrite" s d) d.id = [d] := by
  unfold writeDoc
  rw [if_pos rfl]
  cases ha : s.any (fun e => e.id == d.id) with
  | false =>
      rw [if_neg (by simp [ha])]
      rw [docsWithId_append, docsWithId_nil_of_not_any s _ ha]
      simp [docsWithId]
  | true =>
      rw [if_pos rfl, docsWithId_map_replace]
      obtain ⟨e, he, hid⟩ := List.any_eq_true.mp ha
      have hmem : e ∈ docsWithId s d.id := List.mem_filter.mpr ⟨he, hid⟩
      have h1 : 1 ≤ (docsWithId s d.id).length :=
        Nat.one_le_iff_ne_zero.mpr (by
          intro h0
          rw [List.length_eq_zero.mp h0] at hmem
          exact absurd hmem (List.not_mem_nil e))
      rw [Nat.le_antisymm h h1]
      rfl

theorem mem_writeDoc {policy : String} {s : List Doc} {d d2 : Doc}
    (h : d2 ∈ writeDoc policy s d) : d2 ∈ s ∨ d2 = d := by
  unfold writeDoc at h
  split at h
  · split at h
    · obtain ⟨e, he, heq⟩ := List.mem_map.mp h
      by_cases hid : e.id == d.id
      · rw [if_pos hid] at heq
        exact Or.inr heq.symm
      · rw [if_neg hid] at heq
        exact Or.inl (heq ▸ he)
    · rcases List.mem_append.mp h with h2 | h2
      · exact Or.inl h2
      · exact Or.inr (List.mem_singleton.mp h2)
  · rcases List.mem_append.mp h with h2 | h2
    · exact Or.inl h2
    · exact Or.inr (List.mem_singleton.mp h2)

theorem mem_foldl_writeDoc {policy : String} :
    ∀ (ds : List Doc) (st : List Doc) (d2 : Doc),
      d2 ∈ ds.foldl (writeDoc policy) st → d2 ∈ st ∨ d2 ∈ ds := by
  intro ds
  induction ds with
  | nil => exact fun st d2 h => Or.inl h
  | cons e rest ih =>
      intro st d2 h
      rcases ih (writeDoc policy st e) d2 h with h2 | h2
      · rcases mem_writeDoc h2 with h3 | h3
        · exact Or.inl h3
        · exact Or.inr (by simp [h3])
      · exact Or.inr (List.mem_cons_of_mem e h2)

/-- Every document the modelled run ever stores carries the embedding
model's fixed 768 dimension. -/
theorem runIndexing_dim (g : List PNode) (policy : String)
    (cfg : PreProcessorConfig) (files : List (UploadFile × Dict)) (d : Doc)
    (hd : d ∈ runIndexing g policy cfg files) :
    d.embedding_dim = mpnetEmbeddingDim := by
  unfold runIndexing at hd
  have key : ∀ (fs : List (UploadFile × Dict)) (st : List Doc),
      (∀ e ∈ st, Doc.embedding_dim e = mpnetEmbeddingDim) →
      ∀ e ∈ fs.foldl (indexStep g policy cfg) st,
        Doc.embedding_dim e = mpnetEmbeddingDim := by
    intro fs
    induction fs with
    | nil => exact fun st hst e he => hst e he
    | cons fm rest ih =>
        intro st hst e he
        refine ih (indexStep g policy cfg st fm) ?_ e he
        intro e2 he2
        unfold indexStep at he2
        split at he2
        · exact hst e2 he2
        · rcases mem_foldl_writeDoc _ _ _ he2 with h2 | h2
          · exact hst e2 h2
          · obtain ⟨p, _, heq⟩ := List.mem_map.mp h2
            rw [← heq]
  exact key files [] (fun e he => absurd he (List.not_mem_nil e)) d hd

/-- Constant uuid4-hex supply used for concrete evaluations. -/
def uuid0 : Nat → String := fun _ => "u0"

/-- Converter override form with every field absent. -/
def noConverterOverrides : FileConverterParams :=
  { remove_numeric_tables := none, valid_languages := none }

/-- Preprocessor override form with every field absent. -/
def noPreprocessorOverrides : PreprocessorParams :=
  { clean_whitespace := none, clean_empty_lines := none
    clean_header_footer := none, split_by := none, split_length := none
    split_overlap := none, split_respect_sentence_boundary := none }

/-- A plain-text upload named a.txt. -/
def fileA : UploadFile :=
  { filename := "a.txt", content := "hello", ftype := FileType.text }

/-- A plain-text upload named b.txt. -/
def fileB : UploadFile :=
  { filename := "b.txt", content := "world", ftype := FileType.text }

/-- An upload of a type no converter matches. -/
def fileU : UploadFile :=
  { filename := "x.bin", content := "data", ftype := FileType.unknown }

/-- One text file with metadata naming the collection docs-a. -/
def reqC1 : Request :=
  { files := [fileA]
    meta := Json.obj [("index", Json.str "docs-a")]
    fileconverter_params := noConverterOverrides
    preprocessor_params := noPreprocessorOverrides }

/-- C1: for every request that reaches pipeline construction, the built
graph is the fixed seven-node graph of lines 110-117: the file type
classifier is the sole node fed by the external File entry point, the text,
PDF and Markdown converters are bound to the distinct numbered classifier
channels output_1, output_2 and output_3 respectively, the preprocessor
takes all three converters' outputs, the embedder takes the preprocessor,
the store writer takes the embedder and is the unique terminal node, and
the graph is acyclic with every input resolving to the entry point or an
earlier node. -/
theorem C1_pipeline_topology (req : Request) (u : Nat → String)
    (fs0 : List String) (g : List PNode)
    (h : okPipeline (upload_file req u fs0) = some g) :
    g = indexingPipeline ∧
    nodesFedBy g "File" = ["FileTypeClassifier"] ∧
    nodeInputs g "TextConverter" = some ["FileTypeClassifier.output_1"] ∧
    nodeInputs g "PDFToTextConverter" = some ["FileTypeClassifier.output_2"] ∧
    nodeInputs g "MarkdownConverter" = some ["FileTypeClassifier.output_3"] ∧
    nodeInputs g "PreProcessor" =
      some ["TextConverter", "PDFToTextConverter", "MarkdownConverter"] ∧
    nodeInputs g "EmbeddingRetriever" = some ["PreProcessor"] ∧
    nodeInputs g "DocumentStore" = some ["EmbeddingRetriever"] ∧
    terminalNodes g = ["DocumentStore"] ∧
    acyclicDag g = true := by
  have hg : g = indexingPipeline := by
    unfold okPipeline at h
    obtain ⟨r, ho, hpr⟩ := Option.map_eq_some'.mp h
    obtain ⟨-, m0, ms, idx, -, -, hre⟩ := okRun_some ho
    rw [← hpr, hre]
  subst hg
  exact ⟨rfl, rfl, rfl, rfl, rfl, rfl, rfl, rfl, rfl, rfl⟩

/-- Witness for C1 at a concrete successful request. -/
theorem C1_pipeline_topology_witness :
    terminalNodes indexingPipeline = ["DocumentStore"] ∧
    acyclicDag indexingPipeline = true ∧
    nodesFedBy indexingPipeline "File" = ["FileTypeClassifier"] := by
  have h := C1_pipeline_topology reqC1 uuid0 [] indexingPipeline rfl
  exact ⟨h.2.2.2.2.2.2.2.2.1, h.2.2.2.2.2.2.2.2.2, h.2.1⟩

/-- C2: for every successful request, the collection identifier the store
is configured with (line 84: the index keyword argument) is the index value
of the first file's metadata entry, and since every file's metadata entry
aliases the same dictionary, that one identifier is the index value of
every file's metadata entry in the batch. -/
theorem C2_store_index_from_first_meta (req : Request) (u : Nat → String)
    (fs0 : List String) (st : StoreConfig)
    (h : okStore (upload_file req u fs0) = some st) :
    okFileMetas (upload_file req u fs0) ≠ [] ∧
    dictGet? ((okFileMetas (upload_file req u fs0)).headD []) "index" =
      some st.index ∧
    ∀ m ∈ okFileMetas (upload_file req u fs0),
      dictGet? m "index" = some st.index := by
  unfold okStore at h
  obtain ⟨r, ho, hst⟩ := Option.map_eq_some'.mp h
  obtain ⟨-, m0, ms, idx, hm, hg, hre⟩ := okRun_some ho
  have hfm : okFileMetas (upload_file req u fs0) = m0 :: ms := by
    unfold okFileMetas
    rw [ho, hre]
    rfl
  have hidx : st.index = idx := by
    rw [← hst, hre]
    rfl
  have hmem : ∀ m ∈ okFileMetas (upload_file req u fs0), m = m0 := by
    intro m hmm
    rw [hfm] at hmm
    have h1 : m ∈ metasOf req.files (objFields (metaOrEmpty req.meta)) :=
      hm ▸ hmm
    have h2 : m0 ∈ metasOf req.files (objFields (metaOrEmpty req.meta)) :=
      hm ▸ List.mem_cons_self m0 ms
    unfold metasOf at h1 h2
    rw [List.eq_of_mem_replicate h1, List.eq_of_mem_replicate h2]
  refine ⟨by rw [hfm]; exact List.cons_ne_nil m0 ms, ?_, ?_⟩
  · rw [hfm, hidx]
    exact hg
  · intro m hmm
    rw [hmem m hmm, hidx]
    exact hg

/-- Witness for C2 at a concrete request whose metadata names docs-a. -/
theorem C2_store_index_from_first_meta_witness :
    dictGet? ((okFileMetas (upload_file reqC1 uuid0 [])).headD []) "index" =
      some (mkStore (Json.str "docs-a")).index :=
  (C2_store_index_from_first_meta reqC1 uuid0 [] (mkStore (Json.str "docs-a"))
    rfl).2.1

/-- C10: on every path through the endpoint, success or failure, the upload
directory after the call holds everything it held before plus exactly the
files the call persisted: index.py contains no deletion, so no temporary
file is ever removed. -/
theorem C10_no_temp_file_cleanup (req : Request) (u : Nat → String)
    (fs0 : List String) :
    (upload_file req u fs0).fs = fs0 ++ (upload_file req u fs0).written := by
  unfold upload_file
  split
  · split
    · rfl
    · split
      · rfl
      · rfl
  · simp

/-- One valid text file together with a metadata string decoding to the
empty JSON array, a value that is not a key-value mapping. -/
def reqC3 : Request :=
  { files := [fileA]
    meta := Json.arr []
    fileconverter_params := noConverterOverrides
    preprocessor_params := noPreprocessorOverrides }

/-- Counterexample to C3: the metadata string "[]" decodes to an array, not
a key-value mapping, yet the request is not rejected with HTTP 500 and the
uploaded file is persisted to the upload directory: `json.loads(meta) or {}`
replaces every falsy decode result, the empty array included, with an empty
dict, which passes the isinstance check; the call then saves the file and
only later raises a KeyError when the collection identifier is looked
up. -/
theorem C3_falsy_nondict_not_rejected :
    (upload_file reqC3 uuid0 []).written = ["file-upload/u0_a.txt"] ∧
    (upload_file reqC3 uuid0 []).fs = ["file-upload/u0_a.txt"] ∧
    (upload_file reqC3 uuid0 []).result =
      Except.error (PyErr.keyError "index") :=
  ⟨rfl, rfl, rfl⟩

/-- C3 as amended: for every request whose metadata decodes to a truthy
value that is not a key-value mapping (such as the nonempty array [1,2,3]),
the endpoint raises HTTP 500 with the type-naming detail message before the
file-saving loop runs and before any store object is constructed: nothing is
written to the upload directory and the directory is left unchanged. Falsy
decode results are instead coerced to the empty mapping by the
`or {}` default and the request proceeds. -/
theorem C3_truthy_nondict_rejected (req : Request) (u : Nat → String)
    (fs0 : List String) (h1 : pyTruthy req.meta = true)
    (h2 : isDict req.meta = false) :
    (upload_file req u fs0).result =
      Except.error (PyErr.httpException 500 (metaTypeError req.meta)) ∧
    (upload_file req u fs0).written = [] ∧
    (upload_file req u fs0).fs = fs0 := by
  have hme : metaOrEmpty req.meta = req.meta := by
    unfold metaOrEmpty
    rw [h1]
    rfl
  unfold upload_file
  rw [hme, if_neg (by rw [h2]; exact Bool.false_ne_true)]
  exact ⟨rfl, rfl, rfl⟩

/-- One valid text file together with the spec's example metadata string
"[1,2,3]", decoding to a truthy non-mapping value. -/
def reqC3b : Request :=
  { files := [fileA]
    meta := Json.arr [Json.num 1, Json.num 2, Json.num 3]
    fileconverter_params := noConverterOverrides
    preprocessor_params := noPreprocessorOverrides }

/-- Witness for the amended C3 at the spec's own example input. -/
theorem C3_truthy_nondict_rejected_witness :
    (upload_file reqC3b uuid0 ["existing"]).result =
      Except.error (PyErr.httpException 500 (metaTypeError reqC3b.meta)) ∧
    (upload_file reqC3b uuid0 ["existing"]).fs = ["existing"] := by
  have h := C3_truthy_nondict_rejected reqC3b uuid0 ["existing"] rfl rfl
  exact ⟨h.1, h.2.2⟩

/-- Two text files with distinct names and shared supplied metadata. -/
def reqC6 : Request :=
  { files := [fileA, fileB]
    meta := Json.obj [("index", Json.str "i")]
    fileconverter_params := noConverterOverrides
    preprocessor_params := noPreprocessorOverrides }

/-- Counterexample to C6: with two files a.txt and b.txt, the first file's
metadata entry carries the name b.txt, not its own name a.txt, because line
69 appends the same mutated dictionary object for every file. -/
theorem C6_first_meta_carries_last_name :
    dictGet? ((okFileMetas (upload_file reqC6 uuid0 [])).headD []) "name" =
      some (Json.str "b.txt") ∧
    dictGet? ((okFileMetas (upload_file reqC6 uuid0 [])).headD []) "name" ≠
      some (Json.str "a.txt") := by
  refine ⟨rfl, ?_⟩
  intro hcon
  rw [show dictGet? ((okFileMetas (upload_file reqC6 uuid0 [])).headD [])
      "name" = some (Json.str "b.txt") from rfl] at hcon
  injection hcon with h1
  injection h1 with h2
  exact absurd h2 (by decide)

/-- C6 as amended: every file's metadata entry is the same object, the
supplied mapping mutated in place, so after the loop every entry equals the
supplied mapping with the name key set to the last file's filename (no
collection identifier is added by the endpoint; a file carries its own name
only when it is the last file or shares its filename); the entries a
successful call passes to the pipeline are exactly this aliased list. -/
theorem C6_metas_alias_shared_dict (req : Request) (f : UploadFile)
    (rest : List UploadFile) (hfiles : req.files = f :: rest) :
    (∀ m ∈ metasOf req.files (objFields (metaOrEmpty req.meta)),
      m = dictSet (objFields (metaOrEmpty req.meta)) "name"
        (Json.str (lastFilename req.files))) ∧
    (∀ (u : Nat → String) (fs0 : List String) (r : RunResult),
      okRun (upload_file req u fs0) = some r →
      r.file_metas = metasOf req.files (objFields (metaOrEmpty req.meta))) := by
  constructor
  · intro m hm
    unfold metasOf at hm
    rw [List.eq_of_mem_replicate hm, hfiles, loopMeta_eq_dictSet]
  · intro u fs0 r hr
    obtain ⟨-, m0, ms, idx, hm, -, hre⟩ := okRun_some hr
    rw [hre]
    exact hm.symm

/-- The one dictionary all metadata entries of reqC6 alias after its loop. -/
def aliasedMeta : Dict := [("index", Json.str "i"), ("name", Json.str "b.txt")]

/-- Witness for the amended C6: the entry observed at every position of the
two-file batch is the supplied mapping with name set to b.txt, the last
file's name. -/
theorem C6_metas_alias_shared_dict_witness :
    aliasedMeta = dictSet (objFields (metaOrEmpty reqC6.meta)) "name"
      (Json.str (lastFilename reqC6.files)) := by
  have h := (C6_metas_alias_shared_dict reqC6 fileA [fileB] rfl).1
  refine h aliasedMeta ?_
  rw [show metasOf reqC6.files (objFields (metaOrEmpty reqC6.meta)) =
      [aliasedMeta, aliasedMeta] from rfl]
  exact List.mem_cons_self _ _

/-- One valid text file together with every converter and preprocessor
override field present and different from the hard-coded pipeline values. -/
def reqC7 : Request :=
  { files := [fileA]
    meta := Json.obj [("index", Json.str "docs-a")]
    fileconverter_params :=
      { remove_numeric_tables := some true, valid_languages := some ["en"] }
    preprocessor_params :=
      { clean_whitespace := some false, clean_empty_lines := some false
        clean_header_footer := some false, split_by := some "word"
        split_length := some 10, split_overlap := some 5
        split_respect_sentence_boundary := some true } }

/-- Counterexample to C7: with split_length overridden to 10 the
preprocessor is still configured with the hard-coded 50, and the overridden
remove_numeric_tables never reaches the converters, which are constructed
with no arguments: upload_file receives fileconverter_params and
preprocessor_params (lines 51-52) but never uses them. -/
theorem C7_overrides_have_no_effect :
    reqC7.preprocessor_params.split_length = some 10 ∧
    (okPreprocessor (upload_file reqC7 uuid0 [])).map
      PreProcessorConfig.split_length = some 50 ∧
    (okPreprocessor (upload_file reqC7 uuid0 [])).map
      PreProcessorConfig.split_length ≠ some 10 ∧
    reqC7.fileconverter_params.remove_numeric_tables = some true ∧
    (okConverters (upload_file reqC7 uuid0 [])).map
      FileConverterParams.remove_numeric_tables = some none := by
  refine ⟨rfl, rfl, ?_, rfl, rfl⟩
  intro hcon
  rw [show (okPreprocessor (upload_file reqC7 uuid0 [])).map
      PreProcessorConfig.split_length = some 50 from rfl] at hcon
  exact absurd (Option.some.inj hcon) (by decide)

/-- C7 as amended: the override forms are accepted and parsed but ignored;
for every request that reaches pipeline construction the preprocessor is
configured with the fixed values of lines 98-106 and the converters are
constructed with no arguments, regardless of the submitted override
fields. -/
theorem C7_pipeline_params_fixed (req : Request) (u : Nat → String)
    (fs0 : List String) (cfg : PreProcessorConfig)
    (h : okPreprocessor (upload_file req u fs0) = some cfg) :
    cfg = pipelinePreProcessor ∧
    okConverters (upload_file req u fs0) = some pipelineConverterArgs := by
  unfold okPreprocessor at h
  obtain ⟨r, ho, hcfg⟩ := Option.map_eq_some'.mp h
  obtain ⟨-, m0, ms, idx, -, -, hre⟩ := okRun_some ho
  constructor
  · rw [← hcfg, hre]
  · unfold okConverters
    rw [ho, hre]
    rfl

/-- Witness for the amended C7 at the all-overrides request. -/
theorem C7_pipeline_params_fixed_witness :
    okConverters (upload_file reqC7 uuid0 []) = some pipelineConverterArgs :=
  (C7_pipeline_params_fixed reqC7 uuid0 [] pipelinePreProcessor rfl).2

/-- C8: for every request with at least one file, valid dict metadata, and
no index key in that metadata, the call fails with the lookup error raised
by the subscript `file_metas[0]['index']` while the store is being
configured (line 84), before any file is run through the pipeline: the
store holds nothing, though the saving loop has already persisted the
uploaded files. -/
theorem C8_missing_index_key_error (req : Request) (u : Nat → String)
    (fs0 : List String) (f : UploadFile) (rest : List UploadFile)
    (hfiles : req.files = f :: rest)
    (hd : isDict (metaOrEmpty req.meta) = true)
    (hidx : dictGet? (objFields (metaOrEmpty req.meta)) "index" = none) :
    (upload_file req u fs0).result = Except.error (PyErr.keyError "index") ∧
    okDocs (upload_file req u fs0) = [] ∧
    (upload_file req u fs0).fs = fs0 ++ loopPaths u 0 req.files := by
  have hout : upload_file req u fs0 =
      { result := Except.error (PyErr.keyError "index")
        written := loopPaths u 0 req.files
        fs := fs0 ++ loopPaths u 0 req.files } := by
    unfold upload_file
    rw [if_pos hd]
    split
    case h_1 hm =>
      rw [hfiles] at hm
      simp [metasOf] at hm
    case h_2 m0 ms hm =>
      split
      case h_1 hg => rfl
      case h_2 idx hg =>
        exfalso
        have hm0 : m0 = loopMeta req.files (objFields (metaOrEmpty req.meta)) := by
          have hmem : m0 ∈ metasOf req.files (objFields (metaOrEmpty req.meta)) := by
            rw [hm]
            exact List.mem_cons_self _ _
          exact List.eq_of_mem_replicate hmem
        rw [hm0, dictGet_loopMeta_ne _ _ _ (by decide), hidx] at hg
        exact Option.noConfusion hg
  rw [hout]
  exact ⟨rfl, rfl, rfl⟩

/-- One text file whose metadata has keys but no index key. -/
def reqC8 : Request :=
  { files := [fileA]
    meta := Json.obj [("foo", Json.num 1)]
    fileconverter_params := noConverterOverrides
    preprocessor_params := noPreprocessorOverrides }

/-- Witness for C8 at a concrete index-less request. -/
theorem C8_missing_index_key_error_witness :
    (upload_file reqC8 uuid0 []).result =
      Except.error (PyErr.keyError "index") ∧
    okDocs (upload_file reqC8 uuid0 []) = [] := by
  have h := C8_missing_index_key_error reqC8 uuid0 [] fileA [] rfl rfl rfl
  exact ⟨h.1, h.2.1⟩

/-- C4: a file whose type matches no converter has no bound converter
channel, never reaches the preprocessor, contributes nothing to the store
wherever it sits in the batch, and causes no error: a request made of
otherwise valid data still succeeds whatever the file types of its
uploads. -/
theorem C4_unknown_type_silently_dropped (policy : String)
    (cfg : PreProcessorConfig) (pre post : List (UploadFile × Dict))
    (f : UploadFile) (m : Dict) (h : f.ftype = FileType.unknown) :
    routedConverter indexingPipeline f.ftype = none ∧
    preprocessorInputs indexingPipeline (pre ++ (f, m) :: post) =
      preprocessorInputs indexingPipeline (pre ++ post) ∧
    runIndexing indexingPipeline policy cfg (pre ++ (f, m) :: post) =
      runIndexing indexingPipeline policy cfg (pre ++ post) ∧
    (∀ (req : Request) (u : Nat → String) (fs0 : List String),
      req.files ≠ [] → isDict (metaOrEmpty req.meta) = true →
      (dictGet? (objFields (metaOrEmpty req.meta)) "index").isSome = true →
      (upload_file req u fs0).result.isOk = true) := by
  have hnone : routedConverter indexingPipeline f.ftype = none := by
    rw [h]
    rfl
  have hstep : ∀ st, indexStep indexingPipeline policy cfg st (f, m) = st := by
    intro st
    unfold indexStep
    rw [show routedConverter indexingPipeline (f, m).1.ftype = none from hnone]
  refine ⟨hnone, ?_, ?_, ?_⟩
  · unfold preprocessorInputs
    rw [List.filter_append, List.filter_append, List.filter_cons,
      if_neg (by rw [hnone]; exact Bool.false_ne_true)]
  · unfold runIndexing
    rw [List.foldl_append, List.foldl_append, List.foldl_cons, hstep]
  · intro req u fs0 hne hd hrs
    unfold upload_file
    rw [if_pos hd]
    split
    case h_1 hm =>
      exfalso
      cases hf : req.files with
      | nil => exact hne hf
      | cons f0 rest2 =>
          rw [hf] at hm
          simp [metasOf] at hm
    case h_2 m0 ms hm =>
      split
      case h_1 hg =>
        exfalso
        have hm0 : m0 = loopMeta req.files (objFields (metaOrEmpty req.meta)) := by
          have hmem : m0 ∈ metasOf req.files (objFields (metaOrEmpty req.meta)) := by
            rw [hm]
            exact List.mem_cons_self _ _
          exact List.eq_of_mem_replicate hmem
        obtain ⟨idx, hidx⟩ := Option.isSome_iff_exists.mp hrs
        rw [hm0, dictGet_loopMeta_ne _ _ _ (by decide), hidx] at hg
        exact Option.noConfusion hg
      case h_2 idx hg => rfl

/-- One unknown-type file with metadata naming a collection. -/
def reqC4 : Request :=
  { files := [fileU]
    meta := Json.obj [("index", Json.str "docs-a")]
    fileconverter_params := noConverterOverrides
    preprocessor_params := noPreprocessorOverrides }

/-- Witness for C4: a concrete unknown-type file contributes nothing to the
store and a request holding only that file still succeeds. -/
theorem C4_unknown_type_silently_dropped_witness :
    runIndexing indexingPipeline "overwrite" pipelinePreProcessor
      [(fileU, [])] =
      runIndexing indexingPipeline "overwrite" pipelinePreProcessor [] ∧
    (upload_file reqC4 uuid0 []).result.isOk = true := by
  have h := C4_unknown_type_silently_dropped "overwrite" pipelinePreProcessor
    [] [] fileU [] rfl
  exact ⟨h.2.2.1,
    h.2.2.2 reqC4 uuid0 [] (fun hcon => List.noConfusion hcon) rfl rfl⟩

/-- C5: every successful request configures the store with the overwrite
duplicate policy, and under that policy two successive writes that carry
the same derived content identity leave exactly one document for that
identity in the store, the second write's document, provided the store held
at most one document of that identity beforehand. -/
theorem C5_second_write_overwrites (req : Request) (u : Nat → String)
    (fs0 : List String) (st : StoreConfig)
    (h : okStore (upload_file req u fs0) = some st) (s : List Doc)
    (d d2 : Doc) (hid : d2.id = d.id)
    (hs : (docsWithId s d.id).length ≤ 1) :
    st.duplicate_documents = "overwrite" ∧
    docsWithId (writeDoc st.duplicate_documents
      (writeDoc st.duplicate_documents s d) d2) d.id = [d2] := by
  have hov : st.duplicate_documents = "overwrite" := by
    unfold okStore at h
    obtain ⟨r, ho, hst⟩ := Option.map_eq_some'.mp h
    obtain ⟨-, m0, ms, idx, -, -, hre⟩ := okRun_some ho
    rw [← hst, hre]
    rfl
  refine ⟨hov, ?_⟩
  rw [hov]
  have h1 : docsWithId (writeDoc "overwrite" s d) d.id = [d] :=
    writeDoc_overwrite s d hs
  have h2 : docsWithId (writeDoc "overwrite"
      (writeDoc "overwrite" s d) d2) d2.id = [d2] := by
    apply writeDoc_overwrite
    rw [hid, h1]
    exact Nat.le_refl 1
  rw [hid] at h2
  exact h2

/-- A first document with content identity p. -/
def docP : Doc := { content := "p", meta := [], embedding_dim := 768, id := "p" }

/-- A second document with the same content identity p but different
metadata. -/
def docQ : Doc :=
  { content := "p", meta := [("k", Json.null)], embedding_dim := 768, id := "p" }

/-- Witness for C5: starting from an empty store, writing docP then docQ
under the policy the endpoint configures leaves exactly the one document
docQ for identity p. -/
theorem C5_second_write_overwrites_witness :
    docsWithId (writeDoc (mkStore (Json.str "docs-a")).duplicate_documents
      (writeDoc (mkStore (Json.str "docs-a")).duplicate_documents [] docP)
      docQ) docP.id = [docQ] :=
  (C5_second_write_overwrites reqC1 uuid0 [] (mkStore (Json.str "docs-a"))
    rfl [] docP docQ rfl (Nat.zero_le 1)).2

/-- Two text files with metadata naming the collection docs-a, the spec's
scenario for C9. -/
def reqC9 : Request :=
  { files := [fileA, fileB]
    meta := Json.obj [("index", Json.str "docs-a")]
    fileconverter_params := noConverterOverrides
    preprocessor_params := noPreprocessorOverrides }

/-- C9: every successful request configures the store with similarity dot
product and 768-dimension embeddings, matching the embedding model's fixed
768 dimension, and every document the run writes is embedded at 768
dimensions. -/
theorem C9_dot_product_768 (req : Request) (u : Nat → String)
    (fs0 : List String) (st : StoreConfig)
    (h : okStore (upload_file req u fs0) = some st) :
    st.similarity = "dot_product" ∧
    st.embedding_dim = 768 ∧
    mpnetEmbeddingDim = st.embedding_dim ∧
    ∀ d ∈ okDocs (upload_file req u fs0), d.embedding_dim = 768 := by
  unfold okStore at h
  obtain ⟨r, ho, hst⟩ := Option.map_eq_some'.mp h
  obtain ⟨-, m0, ms, idx, -, -, hre⟩ := okRun_some ho
  have hmk : st = mkStore idx := by
    rw [← hst, hre]
  subst hmk
  refine ⟨rfl, rfl, rfl, ?_⟩
  intro d hd
  have hdocs : okDocs (upload_file req u fs0) =
      runIndexing indexingPipeline (mkStore idx).duplicate_documents
        pipelinePreProcessor (req.files.zip (m0 :: ms)) := by
    unfold okDocs
    rw [ho, hre]
    rfl
  rw [hdocs] at hd
  exact runIndexing_dim _ _ _ _ d hd

/-- Witness for C9 at the spec's scenario: two plain-text files posted with
metadata naming docs-a yield a store configured for docs-a holding two
documents, each embedded at 768 dimensions. -/
theorem C9_dot_product_768_witness :
    (mkStore (Json.str "docs-a")).similarity = "dot_product" ∧
    (mkStore (Json.str "docs-a")).embedding_dim = 768 ∧
    (okStore (upload_file reqC9 uuid0 [])).map StoreConfig.index =
      some (Json.str "docs-a") ∧
    (okDocs (upload_file reqC9 uuid0 [])).length = 2 ∧
    (okDocs (upload_file reqC9 uuid0 [])).map Doc.embedding_dim =
      [768, 768] := by
  have h := C9_dot_product_768 reqC9 uuid0 [] (mkStore (Json.str "docs-a")) rfl
  exact ⟨h.1, h.2.1, rfl, rfl, rfl⟩

end Tekr
